import Mathlib

set_option maxHeartbeats 1000000

/- Verification development for the Beans.ie alt-tag batch job.
   Shallow embedding of the three source modules:
   - `src/shopify.js`   : ShopifyClient (GraphQL media client with retry),
   - `src/gpt.js`       : GPTClient (description generator with fallback),
   - `src/index.js`     : the orchestrator `main`.
   Remote I/O is modelled by oracles (`Nat → response`), indexed by the number
   of calls made so far; machine strings are Lean `String`s restricted to the
   ASCII behaviour of the JavaScript operations used by the source. -/

namespace AltTag

/-- ASCII whitespace matched by the JavaScript `\s` class and `trim()`
    (the embedding restricts text to ASCII, so Unicode space classes are
    omitted). -/
def isJsWs (c : Char) : Bool :=
  c == ' ' || c == '\t' || c == '\n' || c == '\r' || c == '\x0b' || c == '\x0c'

/-- JavaScript `String.prototype.trim` on the character list. -/
def jsTrimList (l : List Char) : List Char :=
  ((l.dropWhile isJsWs).reverse.dropWhile isJsWs).reverse

/-- JavaScript `String.prototype.trim`. -/
def jsTrim (s : String) : String := ⟨jsTrimList s.toList⟩

/-- ASCII lower-casing, as JavaScript `toLowerCase` acts on ASCII. -/
def lowerChar (c : Char) : Char :=
  if 'A' ≤ c ∧ c ≤ 'Z' then Char.ofNat (c.toNat + 32) else c

/-- JavaScript `String.prototype.toLowerCase` (ASCII fragment). -/
def jsToLower (s : String) : String := ⟨s.toList.map lowerChar⟩

/-- JavaScript `String.prototype.split` on a one-character separator:
    `''.split(x) = ['']`, and separators delimit (possibly empty) segments. -/
def jsSplit (sep : Char) : List Char → List (List Char)
  | [] => [[]]
  | c :: rest =>
    let r := jsSplit sep rest
    if c == sep then [] :: r
    else (c :: r.headD []) :: r.tail

/-- Test that `pat` occurs as a contiguous substring of the second list. -/
def listHasSub (pat : List Char) : List Char → Bool
  | [] => pat.isEmpty
  | c :: rest => pat.isPrefixOf (c :: rest) || listHasSub pat rest

/-- JavaScript `s.includes(pat)`. -/
def containsSub (s pat : String) : Bool := listHasSub pat.toList s.toList

/-- JavaScript `s.toLowerCase().includes(pat)` for an already-lowercase
    pattern. -/
def containsCI (s pat : String) : Bool := containsSub (jsToLower s) pat

/-- A character inside the class `[a-zA-Z0-9\s,.&-]`. -/
def isAllowedChar (c : Char) : Bool :=
  c.isAlphanum || isJsWs c || c == ',' || c == '.' || c == '&' || c == '-'

/-- JavaScript regex test `/[^a-zA-Z0-9\s,.&-]/` : some character lies outside
    the allowed class. -/
def hasBadChar (s : String) : Bool := s.toList.any (fun c => !(isAllowedChar c))

/-- JavaScript `s.endsWith(pat)`. -/
def jsEndsWith (s pat : String) : Bool := pat.toList.isSuffixOf s.toList

/- ===================== GPTClient (src/gpt.js) ===================== -/

/-- Outcome of one completions-API call inside `GPTClient.generateAltTag`:
    an explicit model refusal; a parsed payload carrying the `altText` string;
    a thrown error whose message contains "rate limit"; or any other thrown
    error (network failure, JSON parse failure, ...). -/
inductive GenResp where
  | refusal
  | ok (altText : String)
  | rateLimit
  | err
deriving DecidableEq

/-- The local accessibility re-validation applied to a model answer
    (src/gpt.js): the phrases "image of" / "picture of" case-insensitively, or
    any character outside `[a-zA-Z0-9\s,.&-]`, make the answer invalid. -/
def accessInvalid (t : String) : Bool :=
  containsCI t "image of" || containsCI t "picture of" || hasBadChar t

/-- The retry loop of `generateAltTag` (src/gpt.js, `while (attempts <
    maxAttempts)`).  The second `Nat` is `maxAttempts - attempts`, starting at
    `3 - 0`; the first is the index of the next API call.  The result is the
    model-path text (`none` means fall through to the fallback path) together
    with the index after the last call, i.e. the number of calls made. -/
def genLoop (oracle : Nat → GenResp) : Nat → Nat → Option String × Nat
  | callIdx, 0 => (none, callIdx)
  | callIdx, n + 1 =>
    match oracle callIdx with
    | GenResp.refusal => (none, callIdx + 1)
    | GenResp.err => (none, callIdx + 1)
    | GenResp.rateLimit =>
      if 1 ≤ n then genLoop oracle (callIdx + 1) n else (none, callIdx + 1)
    | GenResp.ok s =>
      let t := jsTrim s
      if accessInvalid t then (none, callIdx + 1) else (some t, callIdx + 1)

/-- The fallback text (src/gpt.js): the title segment before the first hyphen
    with underscores replaced by spaces, the fixed suffix, a further suffix when
    still under 60 characters, truncation when over 125. -/
def fallbackText (imageTitle : String) : String :=
  let seg : List Char := (jsSplit '-' imageTitle.toList).headD []
  let t1 : String :=
    ⟨seg.map (fun c => if c == '_' then ' ' else c)⟩ ++ " specialty coffee on Beans.ie"
  let t2 : String := if t1.length < 60 then t1 ++ " from global roasters" else t1
  if 125 < t2.length then ⟨t2.toList.take 125⟩ else t2

/-- Final validation of the fallback (src/gpt.js): length in [60,125], "coffee"
    case-insensitively, no character outside the allowed class. -/
def fallbackValid (t : String) : Bool :=
  decide (60 ≤ t.length) && decide (t.length ≤ 125) &&
    containsCI t "coffee" && !hasBadChar t

/-- Method `GPTClient.generateAltTag`: run the model-path loop, then the fallback
    path.  Returns the produced text (or `none`) and the number of
    completions-API calls made. -/
def generateAltTag (oracle : Nat → GenResp) (imageTitle : String) :
    Option String × Nat :=
  match genLoop oracle 0 3 with
  | (some t, n) => (some t, n)
  | (none, n) =>
    let fb := fallbackText imageTitle
    if fallbackValid fb then (some fb, n) else (none, n)

/- Spec-side formulation of the fallback construction, following the words of
   the specification: "taking the segment of the title before the first hyphen,
   replacing every underscore with a space, and appending ..." -/

/-- Modelled from the spec: "the segment of the title before the first
    hyphen". -/
def specSegmentBeforeHyphen (s : String) : String :=
  ⟨s.toList.takeWhile (fun c => c != '-')⟩

/-- Modelled from the spec: the fallback construction as the specification
    words it, to be compared with `fallbackText`. -/
def specFallbackText (title : String) : String :=
  let t1 : String :=
    ⟨(specSegmentBeforeHyphen title).toList.map (fun c => if c == '_' then ' ' else c)⟩ ++
      " specialty coffee on Beans.ie"
  let t2 : String := if t1.length < 60 then t1 ++ " from global roasters" else t1
  if 125 < t2.length then ⟨t2.toList.take 125⟩ else t2

/- ===================== ShopifyClient (src/shopify.js) ===================== -/

/-- Outcome of one HTTP fetch inside `ShopifyClient.request`: a usable data
    payload; a 200 response carrying a GraphQL `errors` array (joined message);
    HTTP 429; a non-ok response whose `errors` include `MAX_COST_EXCEEDED`; any
    other non-ok response (status and joined error messages); or a thrown
    network-level error with its message. -/
inductive FetchResp (α : Type) where
  | ok (data : α)
  | gqlErrors (msg : String)
  | http429
  | httpCost
  | httpOther (status : Nat) (msg : String)
  | netError (msg : String)

/-- The message check in the catch block of `ShopifyClient.request`:
    `error.message.includes('ETIMEDOUT') || error.message.includes('429')`. -/
def retryableMsg (msg : String) : Bool :=
  containsSub msg "ETIMEDOUT" || containsSub msg "429"

/-- Message thrown on `MAX_COST_EXCEEDED`. -/
def costMsg : String :=
  "Query cost exceeded. Reduce the \"first\" parameter or use bulk operations."

/-- The retry loop of `ShopifyClient.request` (`while (attempts <
    maxAttempts)`), with the second `Nat` equal to `maxAttempts - attempts`
    (starting `3 - 0`) and the first the index of the next HTTP attempt.
    Returns the request outcome and the number of HTTP attempts made.  The 429
    branch increments `attempts` and continues; exhausting the loop raises the
    terminal max-retries error; every thrown error is retried only when its
    message contains "ETIMEDOUT" or "429" and an attempt remains. -/
def requestLoop {α : Type} (oracle : Nat → FetchResp α) :
    Nat → Nat → Except String α × Nat
  | callIdx, 0 =>
    (Except.error "Max retry attempts reached for GraphQL request.", callIdx)
  | callIdx, n + 1 =>
    match oracle callIdx with
    | FetchResp.ok d => (Except.ok d, callIdx + 1)
    | FetchResp.http429 => requestLoop oracle (callIdx + 1) n
    | FetchResp.httpCost =>
      if retryableMsg costMsg && 1 ≤ n then requestLoop oracle (callIdx + 1) n
      else (Except.error costMsg, callIdx + 1)
    | FetchResp.gqlErrors m =>
      let em := "GraphQL errors: " ++ m
      if retryableMsg em && 1 ≤ n then requestLoop oracle (callIdx + 1) n
      else (Except.error em, callIdx + 1)
    | FetchResp.httpOther status m =>
      let em := "HTTP " ++ toString status ++ ": " ++ m
      if retryableMsg em && 1 ≤ n then requestLoop oracle (callIdx + 1) n
      else (Except.error em, callIdx + 1)
    | FetchResp.netError m =>
      if retryableMsg m && 1 ≤ n then requestLoop oracle (callIdx + 1) n
      else (Except.error m, callIdx + 1)

/-- Method `ShopifyClient.request`: the loop started with `attempts = 0`. -/
def request {α : Type} (oracle : Nat → FetchResp α) : Except String α × Nat :=
  requestLoop oracle 0 3

/-- A node of the `files` query result: `id`, nullable `alt`, and the nullable
    `image.url`. -/
structure FileNode where
  id : String
  alt : Option String
  imageUrl : Option String
deriving DecidableEq

/-- One page of the `files` query: edges, `pageInfo.hasNextPage`,
    `pageInfo.endCursor`. -/
structure FilesPage where
  edges : List FileNode
  hasNextPage : Bool
  endCursor : Option String
deriving DecidableEq

/-- The in-memory image record built by `getAllImages`. -/
structure MediaAsset where
  id : String
  altText : Option String
  filename : String
  url : String
deriving DecidableEq

/-- The per-edge mapping in `getAllImages`: filename from the image URL's final
    path segment with the query string stripped (falling back to the trailing
    segment of the id when the URL is absent, empty, or yields an empty
    segment), and `url` = `image?.url || ''`. -/
def deriveAsset (node : FileNode) : MediaAsset :=
  let idName : List Char := (jsSplit '/' node.id.toList).getLastD []
  let filename : List Char :=
    match node.imageUrl with
    | some u =>
      if u != "" then
        let lastPart : List Char := (jsSplit '/' u.toList).getLastD []
        let seg : List Char := (jsSplit '?' lastPart).headD []
        if seg.isEmpty then idName else seg
      else idName
    | none => idName
  { id := node.id
    altText := node.alt
    filename := ⟨filename⟩
    url := match node.imageUrl with
           | some u => if u != "" then u else ""
           | none => "" }

/-- Outcome of one logical `request` for a page inside `getAllImages`: a page
    payload; a response without a `files` field; or a request failure. -/
inductive PageResp where
  | page (p : FilesPage)
  | invalid
  | fail (msg : String)

/-- The `while (hasNextPage)` loop of `getAllImages`.  `fuel` bounds the number
    of iterations the shallow embedding unfolds (the JavaScript loop itself has
    no bound and simply runs until a page clears `hasNextPage`); `reqs`
    accumulates the variables `{ first, after }` of every request issued. -/
def getImagesLoop (oracle : Nat → PageResp) (callIdx : Nat)
    (after : Option String) (acc : List MediaAsset)
    (reqs : List (Nat × Option String)) :
    Nat → Except String (List MediaAsset) × List (Nat × Option String)
  | 0 => (Except.error "fuel exhausted", reqs)
  | fuel + 1 =>
    let reqs2 := reqs ++ [(50, after)]
    match oracle callIdx with
    | PageResp.fail m => (Except.error m, reqs2)
    | PageResp.invalid =>
      (Except.error "Invalid response from Shopify GraphQL API", reqs2)
    | PageResp.page p =>
      let acc2 := acc ++ p.edges.map deriveAsset
      if p.hasNextPage then getImagesLoop oracle (callIdx + 1) p.endCursor acc2 reqs2 fuel
      else (Except.ok acc2, reqs2)

/-- Method `ShopifyClient.getAllImages`: the loop started with `after = null`, empty
    accumulator. -/
def getAllImages (oracle : Nat → PageResp) (fuel : Nat) :
    Except String (List MediaAsset) × List (Nat × Option String) :=
  getImagesLoop oracle 0 none [] [] fuel

/-- The oracle that serves a fixed list of pages in order and an invalid
    response beyond it. -/
def pagesOracle (pages : List FilesPage) : Nat → PageResp :=
  fun i => match pages[i]? with
           | some p => PageResp.page p
           | none => PageResp.invalid

/- ===================== Orchestrator (src/index.js) ===================== -/

/-- The candidate filter's first conjunct:
    `!image.altText || image.altText.trim() === ''`. -/
def isMissingAlt (a : Option String) : Bool :=
  match a with
  | none => true
  | some s => decide (jsTrim s = "")

/-- The candidate filter's second conjunct:
    `!image.url.toLowerCase().endsWith('.svg')`. -/
def isSupportedFormat (img : MediaAsset) : Bool :=
  !(jsEndsWith (jsToLower img.url) ".svg")

/-- The predicate of `images.filter(...)` in `main`. -/
def isCandidate (img : MediaAsset) : Bool :=
  isMissingAlt img.altText && isSupportedFormat img

/-- The statement `const imagesMissingAlt = images.filter(...)`. -/
def selectCandidates (images : List MediaAsset) : List MediaAsset :=
  images.filter isCandidate

/-- One entry pushed into `batchUpdates`. -/
structure BatchResult where
  imageId : String
  altTag : Option String
  imageUrl : String
  error : Option String
deriving DecidableEq

/-- The arguments of the `gpt.generateAltTag` call made for an image
    (`businessContext` is a fixed literal and is omitted). -/
structure GenCall where
  imageUrl : String
  imageTitle : String
deriving DecidableEq

/-- External outcomes for one candidate: what `gpt.generateAltTag` settles to
    (`Except.error` = a rejected promise, `Except.ok` = the returned nullable
    text), and what `shopify.updateImageAltTag` settles to if called. -/
structure ItemEnv where
  gen : Except String (Option String)
  write : Except String Unit

/-- The argument `imageTitle: image.filename || 'Coffee product image'`. -/
def titleOf (img : MediaAsset) : String :=
  if img.filename == "" then "Coffee product image" else img.filename

/-- The per-image async body in the batch loop of `main`: generate, then —
    unless in dry-run — write back a non-null text; a caught error is recorded
    in the result's `error` field.  Returns the `BatchResult` pushed, the write
    mutations issued (as `(imageId, altText)` pairs), and the generator call
    made. -/
def processItem (dryRun : Bool) (env : ItemEnv) (img : MediaAsset) :
    BatchResult × List (String × String) × GenCall :=
  let call : GenCall := { imageUrl := img.url, imageTitle := titleOf img }
  match env.gen with
  | Except.error msg =>
    ({ imageId := img.id, altTag := none, imageUrl := img.url, error := some msg },
     [], call)
  | Except.ok altText =>
    if dryRun then
      ({ imageId := img.id, altTag := altText, imageUrl := img.url, error := none },
       [], call)
    else
      match altText with
      | some t =>
        match env.write with
        | Except.ok _ =>
          ({ imageId := img.id, altTag := some t, imageUrl := img.url, error := none },
           [(img.id, t)], call)
        | Except.error msg =>
          ({ imageId := img.id, altTag := none, imageUrl := img.url, error := some msg },
           [(img.id, t)], call)
      | none =>
        ({ imageId := img.id, altTag := none, imageUrl := img.url, error := none },
         [], call)

/-- The statement `estimatedTokensUsed += tokensPerRequest` runs exactly when the generate
    call did not throw. -/
def genTokens (env : ItemEnv) : Nat :=
  match env.gen with
  | Except.ok _ => 1000
  | Except.error _ => 0

/-- Process the items of one batch in order (the source launches them
    concurrently and awaits them all; the embedding fixes the settlement order
    to the batch order, which no counted or per-item claim depends on).
    Returns results, writes, generator calls, and tokens added. -/
def processBatch (dryRun : Bool) (envs : Nat → ItemEnv) :
    List MediaAsset → Nat →
    List BatchResult × List (String × String) × List GenCall × Nat
  | [], _ => ([], [], [], 0)
  | img :: rest, idx =>
    let one := processItem dryRun (envs idx) img
    let restR := processBatch dryRun envs rest (idx + 1)
    (one.1 :: restR.1, one.2.1 ++ restR.2.1, one.2.2 :: restR.2.2.1,
     genTokens (envs idx) + restR.2.2.2)

/-- The slices `imagesMissingAlt.slice(i, i + batchSize)` for `i = 0, 5, 10, ...` with
    `batchSize = 5`. -/
def chunk5 {α : Type} : List α → List (List α)
  | [] => []
  | [a] => [[a]]
  | [a, b] => [[a, b]]
  | [a, b, c] => [[a, b, c]]
  | [a, b, c, d] => [[a, b, c, d]]
  | a :: b :: c :: d :: e :: rest => [a, b, c, d, e] :: chunk5 rest

/-- One `allUpdates` entry: `{ batch: batchNumber, updates: batchUpdates }`. -/
structure BatchEntry where
  batch : Nat
  updates : List BatchResult
deriving DecidableEq

/-- The `for` loop of `main` over the batches: the TPM check
    (`estimatedTokensUsed + batch.length * 1000 > 27000` pauses and resets the
    estimate — the 60s sleep itself is timing and not modelled), then the
    batch's items, then the push onto `allUpdates`.  Arguments after the chunk
    list: first item index, batch number, estimated tokens used. -/
def runChunks (dryRun : Bool) (envs : Nat → ItemEnv) :
    List (List MediaAsset) → Nat → Nat → Nat →
    List BatchEntry × List (String × String) × List GenCall × Nat
  | [], _, _, est => ([], [], [], est)
  | b :: rest, idx, bn, est =>
    let est0 := if 27000 < est + b.length * 1000 then 0 else est
    let br := processBatch dryRun envs b idx
    let r2 := runChunks dryRun envs rest (idx + b.length) (bn + 1) (est0 + br.2.2.2)
    ({ batch := bn, updates := br.1 } :: r2.1, br.2.1 ++ r2.2.1,
     br.2.2.1 ++ r2.2.2.1, r2.2.2.2)

/-- External inputs of one run: what `verifyScopes` settles to, what
    `getAllImages` settles to, and the per-candidate item outcomes (indexed by
    the candidate's position across all batches). -/
structure RunEnv where
  scopes : Except String Bool
  images : Except String (List MediaAsset)
  items : Nat → ItemEnv

/-- Observable outcome of one run: the accumulated `allUpdates`, the write
    mutations issued, the generator calls made, and whether the `finally`
    block wrote the report file (`if (allUpdates.length > 0)`). -/
structure RunOut where
  batches : List BatchEntry
  writes : List (String × String)
  genCalls : List GenCall
  reportWritten : Bool

/-- The `try` block of `main` (src/index.js): verify scopes (a missing scope
    throws, caught by the outer catch with `allUpdates` still empty), list
    images, filter candidates, early-return when none, otherwise run the batch
    loop.  Yields the accumulated `allUpdates`, writes, and generator calls. -/
def mainCore (dryRun : Bool) (env : RunEnv) :
    List BatchEntry × List (String × String) × List GenCall :=
  match env.scopes with
  | Except.error _ => ([], [], [])
  | Except.ok ok =>
    if ok then
      match env.images with
      | Except.error _ => ([], [], [])
      | Except.ok images =>
        let cands := selectCandidates images
        if cands.isEmpty then ([], [], [])
        else
          let r := runChunks dryRun env.items (chunk5 cands) 0 1 0
          (r.1, r.2.1, r.2.2.1)
    else ([], [], [])

/-- Function `main` (src/index.js): the `try` block, then the `finally` block, which
    writes the report file only when `allUpdates` is non-empty. -/
def mainRun (dryRun : Bool) (env : RunEnv) : RunOut :=
  { batches := (mainCore dryRun env).1
    writes := (mainCore dryRun env).2.1
    genCalls := (mainCore dryRun env).2.2
    reportWritten := decide (0 < (mainCore dryRun env).1.length) }

/-- A neutral item outcome for concrete runs. -/
def idleItem : ItemEnv := { gen := Except.ok none, write := Except.ok () }

/- ===================== Helper lemmas ===================== -/

lemma jsTrimList_eq_nil (l : List Char) :
    jsTrimList l = [] ↔ ∀ c ∈ l, isJsWs c = true := by
  unfold jsTrimList
  constructor
  · intro h c hc
    rw [List.reverse_eq_nil_iff, List.dropWhile_eq_nil_iff] at h
    have hdrop : ∀ x ∈ l.dropWhile isJsWs, isJsWs x = true := by
      intro x hx
      exact h x (List.mem_reverse.mpr hx)
    have hsplit : c ∈ l.takeWhile isJsWs ++ l.dropWhile isJsWs := by
      rw [List.takeWhile_append_dropWhile]
      exact hc
    rcases List.mem_append.mp hsplit with h1 | h2
    · exact List.mem_takeWhile_imp h1
    · exact hdrop c h2
  · intro h
    have hd : l.dropWhile isJsWs = [] := List.dropWhile_eq_nil_iff.mpr h
    rw [hd]
    rfl

lemma string_mk_eq_empty (l : List Char) : (⟨l⟩ : String) = "" ↔ l = [] := by
  constructor
  · intro h
    exact congrArg String.data h
  · intro h
    subst h
    rfl

lemma jsTrim_eq_empty (s : String) :
    jsTrim s = "" ↔ ∀ c ∈ s.toList, isJsWs c = true := by
  rw [← jsTrimList_eq_nil]
  exact string_mk_eq_empty (jsTrimList s.toList)

/- ===================== Claim C4 ===================== -/

/-- Modelled from the spec: "alt text is null, empty, or whitespace-only"
    (empty is the all-whitespace case of the empty character list). -/
def blankAltSpec : Option String → Prop
  | none => True
  | some s => ∀ c ∈ s.toList, isJsWs c = true

lemma isMissingAlt_iff (a : Option String) :
    isMissingAlt a = true ↔ blankAltSpec a := by
  cases a with
  | none => simp [isMissingAlt, blankAltSpec]
  | some s =>
    simp only [isMissingAlt, blankAltSpec, decide_eq_true_eq]
    exact jsTrim_eq_empty s

/-- C4: a media asset is selected as a Candidate iff its alt text is null,
    empty, or whitespace-only and its URL, lowercased, does not end in
    ".svg". -/
theorem candidate_selection_iff (images : List MediaAsset) (img : MediaAsset) :
    img ∈ selectCandidates images ↔
      img ∈ images ∧ blankAltSpec img.altText ∧
        jsEndsWith (jsToLower img.url) ".svg" = false := by
  unfold selectCandidates
  rw [List.mem_filter]
  have hc : isCandidate img = true ↔
      blankAltSpec img.altText ∧ jsEndsWith (jsToLower img.url) ".svg" = false := by
    unfold isCandidate isSupportedFormat
    rw [Bool.and_eq_true, Bool.not_eq_true', isMissingAlt_iff]
  constructor
  · intro h
    exact ⟨h.1, (hc.mp h.2).1, (hc.mp h.2).2⟩
  · intro h
    exact ⟨h.1, hc.mpr ⟨h.2.1, h.2.2⟩⟩

/- ===================== Claim C6 ===================== -/

lemma requestLoop_calls_le {α : Type} (oracle : Nat → FetchResp α)
    (callIdx fuel : Nat) : (requestLoop oracle callIdx fuel).2 ≤ callIdx + fuel := by
  induction callIdx, fuel using requestLoop.induct oracle
  all_goals first
    | (simp_all [requestLoop]; done)
    | (simp_all [requestLoop]; omega)
    | (simp_all [requestLoop]; split <;> (simp; try omega))

lemma genLoop_calls_le (oracle : Nat → GenResp)
    (callIdx fuel : Nat) : (genLoop oracle callIdx fuel).2 ≤ callIdx + fuel := by
  induction callIdx, fuel using genLoop.induct oracle
  all_goals first
    | (simp_all [genLoop]; done)
    | (simp_all [genLoop]; omega)

/-- C6: the media client's `request` makes at most 3 HTTP attempts, and the
    generator's `generateAltTag` makes at most 3 completions-API attempts. -/
theorem retry_attempt_bound (α : Type) (o1 : Nat → FetchResp α)
    (o2 : Nat → GenResp) (title : String) :
    (request o1).2 ≤ 3 ∧ (generateAltTag o2 title).2 ≤ 3 := by
  constructor
  · have := requestLoop_calls_le o1 0 3
    simpa [request] using this
  · have hle := genLoop_calls_le o2 0 3
    unfold generateAltTag
    rcases hg : genLoop o2 0 3 with ⟨mo, n⟩
    rw [hg] at hle
    simp only at hle
    cases mo with
    | some t => simpa using hle
    | none =>
      simp only []
      split <;> simpa using hle

/- ===================== Claim C8 ===================== -/

lemma jsSplit_headD (sep : Char) (l : List Char) :
    (jsSplit sep l).headD [] = l.takeWhile (fun c => c != sep) := by
  induction l with
  | nil => rfl
  | cons c rest ih =>
    simp only [jsSplit, List.takeWhile_cons]
    by_cases h : c = sep
    · subst h
      simp
    · have hb : (c == sep) = false := by
        simp [h]
      have hb2 : (c != sep) = true := by
        simp [bne, hb]
      simp [hb, hb2]
      simpa using ih

lemma fallbackText_eq_spec (title : String) :
    fallbackText title = specFallbackText title := by
  unfold fallbackText specFallbackText specSegmentBeforeHyphen
  rw [jsSplit_headD]
  rfl

/-- C8: the fallback text is built from the title segment before the first
    hyphen, underscores replaced by spaces, the fixed suffix appended, a second
    suffix when under 60 characters, truncation at 125; and once the model path
    has failed, `generateAltTag` returns the fallback exactly when it passes the
    length/keyword/character validation, and null otherwise. -/
theorem fallback_construction_and_gate (title : String) (oracle : Nat → GenResp) :
    fallbackText title = specFallbackText title ∧
    ((genLoop oracle 0 3).1 = none →
      (generateAltTag oracle title).1 =
        if fallbackValid (fallbackText title) then some (fallbackText title)
        else none) := by
  refine ⟨fallbackText_eq_spec title, ?_⟩
  intro h
  unfold generateAltTag
  rcases hg : genLoop oracle 0 3 with ⟨mo, n⟩
  rw [hg] at h
  simp only at h
  subst h
  simp only []
  split <;> rfl

/-- Witness for C8 at a concrete title and an erroring oracle. -/
theorem fallback_construction_and_gate_witness :
    (genLoop (fun _ => GenResp.err) 0 3).1 = none ∧
    (fallbackText "Colombia_Huila-Washed.jpg" = specFallbackText "Colombia_Huila-Washed.jpg" ∧
      (generateAltTag (fun _ => GenResp.err) "Colombia_Huila-Washed.jpg").1 =
        if fallbackValid (fallbackText "Colombia_Huila-Washed.jpg") then
          some (fallbackText "Colombia_Huila-Washed.jpg")
        else none) := by
  have h := fallback_construction_and_gate "Colombia_Huila-Washed.jpg" (fun _ => GenResp.err)
  exact ⟨by decide, h.1, h.2 (by decide)⟩

/- ===================== Claim C1 ===================== -/

lemma genLoop_some_valid (oracle : Nat → GenResp) (callIdx fuel : Nat) :
    ∀ t, (genLoop oracle callIdx fuel).1 = some t → accessInvalid t = false := by
  induction callIdx, fuel using genLoop.induct oracle
  all_goals intro t ht
  all_goals simp_all [genLoop]
  all_goals subst ht
  all_goals simp_all

/-- C1 (amended): every non-null text returned by `generateAltTag` contains no
    character outside `[A-Za-z0-9\s,.&-]`; a model-path text additionally
    contains neither "image of" nor "picture of" case-insensitively (its length
    and keyword are constrained only by the requested response schema, not
    re-checked locally); a fallback-path text additionally has length in
    [60,125] and contains "coffee" case-insensitively (the phrase check is not
    applied on the fallback path). -/
theorem generated_text_rules (oracle : Nat → GenResp) (title t : String)
    (h : (generateAltTag oracle title).1 = some t) :
    hasBadChar t = false ∧
    ((genLoop oracle 0 3).1 = some t → accessInvalid t = false) ∧
    ((genLoop oracle 0 3).1 = none →
      60 ≤ t.length ∧ t.length ≤ 125 ∧ containsCI t "coffee" = true) := by
  unfold generateAltTag at h
  rcases hg : genLoop oracle 0 3 with ⟨mo, n⟩
  rw [hg] at h
  cases mo with
  | some u =>
    simp only at h
    have hu : u = t := by
      injection h
    subst hu
    have hv : accessInvalid u = false :=
      genLoop_some_valid oracle 0 3 u (by rw [hg])
    have hbad : hasBadChar u = false := by
      unfold accessInvalid at hv
      simp only [Bool.or_eq_false_iff] at hv
      exact hv.2
    refine ⟨hbad, fun _ => hv, fun hnone => ?_⟩
    simp at hnone
  | none =>
    simp only at h
    split at h
    case isTrue hfb =>
      have hfb2 : t = fallbackText title := by
        injection h with h2
        exact h2.symm
      subst hfb2
      unfold fallbackValid at hfb
      simp only [Bool.and_eq_true, decide_eq_true_eq, Bool.not_eq_true'] at hfb
      refine ⟨hfb.2, fun hsome => ?_, fun _ => ⟨hfb.1.1.1, hfb.1.1.2, hfb.1.2⟩⟩
      simp at hsome
    case isFalse hfb =>
      simp at h

/-- C1 counterexample: on the fallback path a title beginning "picture of"
    yields an accepted text that contains "picture of" case-insensitively. -/
theorem generated_text_rules_counterexample :
    (generateAltTag (fun _ => GenResp.refusal)
        "picture of a barista pouring latte art").1 =
      some "picture of a barista pouring latte art specialty coffee on Beans.ie" ∧
    containsCI "picture of a barista pouring latte art specialty coffee on Beans.ie"
        "picture of" = true := by
  exact ⟨by decide, by decide⟩

/-- Witness for the amended C1 at a concrete erroring oracle and title. -/
theorem generated_text_rules_witness :
    hasBadChar "ethiopian natural process specialty coffee on Beans.ie from global roasters" = false ∧
    ((genLoop (fun _ => GenResp.err) 0 3).1 =
        some "ethiopian natural process specialty coffee on Beans.ie from global roasters" →
      accessInvalid "ethiopian natural process specialty coffee on Beans.ie from global roasters" = false) ∧
    ((genLoop (fun _ => GenResp.err) 0 3).1 = none →
      60 ≤ ("ethiopian natural process specialty coffee on Beans.ie from global roasters" : String).length ∧
      ("ethiopian natural process specialty coffee on Beans.ie from global roasters" : String).length ≤ 125 ∧
      containsCI "ethiopian natural process specialty coffee on Beans.ie from global roasters" "coffee" = true) :=
  generated_text_rules (fun _ => GenResp.err) "ethiopian_natural_process"
    "ethiopian natural process specialty coffee on Beans.ie from global roasters" (by decide)

/- ===================== Claim C2 ===================== -/

/-- C2 (amended): when scope verification reports missing scopes the run aborts
    before any batch is processed, no write mutation is issued, and no report is
    written; the `finally` block persists the report (once) exactly when at
    least one batch entry was accumulated. -/
theorem scope_failure_no_report (dryRun : Bool) (env : RunEnv)
    (h : env.scopes = Except.ok false) :
    (mainRun dryRun env).batches = [] ∧
    (mainRun dryRun env).writes = [] ∧
    (mainRun dryRun env).reportWritten = false ∧
    (mainRun dryRun env).reportWritten =
      decide (0 < (mainRun dryRun env).batches.length) := by
  unfold mainRun mainCore
  rw [h]
  simp

/-- C2 counterexample: with scopes missing the report file is not written (the
    claim asserts it is still written with zero batches). -/
theorem scope_failure_counterexample :
    (mainRun false
        { scopes := Except.ok false, images := Except.ok [],
          items := fun _ => idleItem }).batches = [] ∧
    (mainRun false
        { scopes := Except.ok false, images := Except.ok [],
          items := fun _ => idleItem }).reportWritten = false := by
  exact ⟨rfl, rfl⟩

/-- Witness for the amended C2 at a concrete environment. -/
theorem scope_failure_no_report_witness :
    (mainRun true
        { scopes := Except.ok false, images := Except.ok [],
          items := fun _ => idleItem }).batches = [] ∧
    (mainRun true
        { scopes := Except.ok false, images := Except.ok [],
          items := fun _ => idleItem }).writes = [] ∧
    (mainRun true
        { scopes := Except.ok false, images := Except.ok [],
          items := fun _ => idleItem }).reportWritten = false ∧
    (mainRun true
        { scopes := Except.ok false, images := Except.ok [],
          items := fun _ => idleItem }).reportWritten =
      decide (0 < (mainRun true
        { scopes := Except.ok false, images := Except.ok [],
          items := fun _ => idleItem }).batches.length) :=
  scope_failure_no_report true
    { scopes := Except.ok false, images := Except.ok [], items := fun _ => idleItem }
    rfl

/- ===================== Claim C3 ===================== -/

lemma processItem_call (dryRun : Bool) (env : ItemEnv) (img : MediaAsset) :
    (processItem dryRun env img).2.2 =
      { imageUrl := img.url, imageTitle := titleOf img } := by
  unfold processItem
  rcases env with ⟨g, w⟩
  cases g with
  | error m => rfl
  | ok a =>
    cases dryRun with
    | true => rfl
    | false =>
      cases a with
      | none => rfl
      | some t =>
        cases w with
        | ok u => rfl
        | error m => rfl

/-- C3 (amended): a model refusal makes `generateAltTag` fall through to the
    fallback path; when the fallback also fails validation, the item records a
    `BatchResult` with `altTag` null and issues no write mutation in live
    mode. -/
theorem refusal_invalid_fallback_null (oracle : Nat → GenResp) (title : String)
    (img : MediaAsset) (w : Except String Unit)
    (h1 : oracle 0 = GenResp.refusal)
    (h2 : fallbackValid (fallbackText title) = false) :
    processItem false
        { gen := Except.ok (generateAltTag oracle title).1, write := w } img =
      ({ imageId := img.id, altTag := none, imageUrl := img.url, error := none },
       [], { imageUrl := img.url, imageTitle := titleOf img }) := by
  have hgen : (generateAltTag oracle title).1 = none := by
    unfold generateAltTag
    have hloop : genLoop oracle 0 3 = (none, 1) := by
      simp [genLoop, h1]
    rw [hloop]
    simp [h2]
  rw [hgen]
  rfl

/-- C3 counterexample: in live mode a model refusal whose fallback passes
    validation records a non-null `altTag` and issues a write mutation. -/
theorem refusal_counterexample :
    (processItem false
        { gen := Except.ok
            (generateAltTag (fun _ => GenResp.refusal) "ethiopian_natural_process").1,
          write := Except.ok () }
        { id := "gid1", altText := none, filename := "ethiopian_natural_process",
          url := "https://cdn/e.jpg" }).1.altTag =
      some "ethiopian natural process specialty coffee on Beans.ie from global roasters" ∧
    (processItem false
        { gen := Except.ok
            (generateAltTag (fun _ => GenResp.refusal) "ethiopian_natural_process").1,
          write := Except.ok () }
        { id := "gid1", altText := none, filename := "ethiopian_natural_process",
          url := "https://cdn/e.jpg" }).2.1 =
      [("gid1", "ethiopian natural process specialty coffee on Beans.ie from global roasters")] := by
  exact ⟨by decide, by decide⟩

/-- Witness for the amended C3 at a concrete refusal oracle and short title. -/
theorem refusal_invalid_fallback_null_witness :
    (fun _ => GenResp.refusal) 0 = GenResp.refusal ∧
    fallbackValid (fallbackText "a") = false ∧
    processItem false
        { gen := Except.ok (generateAltTag (fun _ => GenResp.refusal) "a").1,
          write := Except.ok () }
        { id := "gid2", altText := none, filename := "a", url := "https://cdn/a.jpg" } =
      ({ imageId := "gid2", altTag := none, imageUrl := "https://cdn/a.jpg", error := none },
       [], { imageUrl := "https://cdn/a.jpg",
             imageTitle := titleOf
               ({ id := "gid2", altText := none, filename := "a",
                  url := "https://cdn/a.jpg" } : MediaAsset) }) :=
  ⟨rfl, by decide,
    refusal_invalid_fallback_null (fun _ => GenResp.refusal) "a"
      { id := "gid2", altText := none, filename := "a", url := "https://cdn/a.jpg" }
      (Except.ok ()) rfl (by decide)⟩

/- ===================== Claim C10 ===================== -/

/-- C10: an asset listed without an image URL gets `url = ""`; the empty URL
    passes the supported-format test, so with blank alt text the asset becomes
    a Candidate, and the generator call for it carries an empty image URL. -/
theorem no_url_asset_flow (node : FileNode) (d : Bool) (e : ItemEnv)
    (h : node.imageUrl = none) :
    (deriveAsset node).url = "" ∧
    isSupportedFormat (deriveAsset node) = true ∧
    (isMissingAlt (deriveAsset node).altText = true →
      isCandidate (deriveAsset node) = true) ∧
    (processItem d e (deriveAsset node)).2.2.imageUrl = "" := by
  have hurl : (deriveAsset node).url = "" := by
    simp [deriveAsset, h]
  have hsup : isSupportedFormat (deriveAsset node) = true := by
    unfold isSupportedFormat
    rw [hurl]
    decide
  refine ⟨hurl, hsup, ?_, ?_⟩
  · intro hm
    unfold isCandidate
    rw [hm, hsup]
    rfl
  · rw [processItem_call]
    exact hurl

/-- Witness for C10 at a concrete URL-less node. -/
theorem no_url_asset_flow_witness :
    (deriveAsset { id := "gid://shopify/MediaImage/9", alt := none, imageUrl := none }).url = "" ∧
    isSupportedFormat
      (deriveAsset { id := "gid://shopify/MediaImage/9", alt := none, imageUrl := none }) = true ∧
    (isMissingAlt
        (deriveAsset { id := "gid://shopify/MediaImage/9", alt := none, imageUrl := none }).altText = true →
      isCandidate
        (deriveAsset { id := "gid://shopify/MediaImage/9", alt := none, imageUrl := none }) = true) ∧
    (processItem false idleItem
        (deriveAsset { id := "gid://shopify/MediaImage/9", alt := none, imageUrl := none })).2.2.imageUrl = "" :=
  no_url_asset_flow { id := "gid://shopify/MediaImage/9", alt := none, imageUrl := none }
    false idleItem rfl

/- ===================== Claim C5 ===================== -/

lemma chunk5_flatten {α : Type} (l : List α) : (chunk5 l).flatten = l := by
  induction l using chunk5.induct with
  | case1 => rfl
  | case2 a => rfl
  | case3 a b => rfl
  | case4 a b c => rfl
  | case5 a b c d => rfl
  | case6 a b c d e rest ih =>
    simp only [chunk5, List.flatten_cons]
    rw [ih]
    rfl

lemma processItem_imageId (d : Bool) (e : ItemEnv) (img : MediaAsset) :
    (processItem d e img).1.imageId = img.id := by
  unfold processItem
  rcases e with ⟨g, w⟩
  cases g with
  | error m => rfl
  | ok a =>
    cases d with
    | true => rfl
    | false =>
      cases a with
      | none => rfl
      | some t =>
        cases w with
        | ok u => rfl
        | error m => rfl

lemma processBatch_ids (d : Bool) (envs : Nat → ItemEnv) :
    ∀ (batch : List MediaAsset) (idx : Nat),
      (processBatch d envs batch idx).1.map BatchResult.imageId =
        batch.map MediaAsset.id := by
  intro batch
  induction batch with
  | nil => intro idx; rfl
  | cons img rest ih =>
    intro idx
    simp [processBatch, processItem_imageId, ih]

lemma runChunks_ids (d : Bool) (envs : Nat → ItemEnv) :
    ∀ (chs : List (List MediaAsset)) (idx bn est : Nat),
      ((runChunks d envs chs idx bn est).1.map BatchEntry.updates).flatten.map
          BatchResult.imageId =
        chs.flatten.map MediaAsset.id := by
  intro chs
  induction chs with
  | nil => intro idx bn est; rfl
  | cons b rest ih =>
    intro idx bn est
    simp [runChunks, List.map_append, processBatch_ids, ih]

/-- C5: for every Candidate processed by the batch loop, exactly one
    BatchResult appears in the final report, in candidate order, whatever the
    per-item outcome was. -/
theorem report_completeness (dryRun : Bool) (env : RunEnv)
    (images : List MediaAsset)
    (hs : env.scopes = Except.ok true) (hi : env.images = Except.ok images) :
    ((mainRun dryRun env).batches.map BatchEntry.updates).flatten.map
        BatchResult.imageId =
      (selectCandidates images).map MediaAsset.id := by
  have hb : (mainRun dryRun env).batches = (mainCore dryRun env).1 := rfl
  rw [hb]
  unfold mainCore
  rw [hs, hi]
  simp only [if_true]
  by_cases hc : (selectCandidates images).isEmpty
  · rw [if_pos hc]
    rw [List.isEmpty_iff] at hc
    rw [hc]
    rfl
  · rw [if_neg hc]
    simp only []
    rw [runChunks_ids, chunk5_flatten]

/-- Witness for C5: a run over 7 candidates (batched 5 and 2). -/
theorem report_completeness_witness :
    ({ scopes := Except.ok true,
       images := Except.ok (List.range 7 |>.map (fun i =>
         { id := toString i, altText := none, filename := "img", url := "x.jpg" })),
       items := fun _ => idleItem } : RunEnv).scopes = Except.ok true ∧
    ((mainRun false
        { scopes := Except.ok true,
          images := Except.ok (List.range 7 |>.map (fun i =>
            { id := toString i, altText := none, filename := "img", url := "x.jpg" })),
          items := fun _ => idleItem }).batches.map BatchEntry.updates).flatten.map
        BatchResult.imageId =
      (selectCandidates (List.range 7 |>.map (fun i =>
        { id := toString i, altText := none, filename := "img", url := "x.jpg" }))).map
        MediaAsset.id :=
  ⟨rfl,
    report_completeness false
      { scopes := Except.ok true,
        images := Except.ok (List.range 7 |>.map (fun i =>
          { id := toString i, altText := none, filename := "img", url := "x.jpg" })),
        items := fun _ => idleItem }
      (List.range 7 |>.map (fun i =>
        { id := toString i, altText := none, filename := "img", url := "x.jpg" }))
      rfl rfl⟩

/- ===================== Claim C9 ===================== -/

/-- The BatchResult recorded for an item in dry-run mode: the generated text
    (possibly null), or the caught error. -/
def dryItemResult (e : ItemEnv) (img : MediaAsset) : BatchResult :=
  match e.gen with
  | Except.ok t =>
    { imageId := img.id, altTag := t, imageUrl := img.url, error := none }
  | Except.error m =>
    { imageId := img.id, altTag := none, imageUrl := img.url, error := some m }

/-- The per-candidate dry-run records, in order, starting at item index
    `idx`. -/
def dryResults (envs : Nat → ItemEnv) : List MediaAsset → Nat → List BatchResult
  | [], _ => []
  | img :: rest, idx => dryItemResult (envs idx) img :: dryResults envs rest (idx + 1)

lemma processItem_dry (e : ItemEnv) (img : MediaAsset) :
    (processItem true e img).1 = dryItemResult e img ∧
    (processItem true e img).2.1 = [] := by
  unfold processItem dryItemResult
  rcases e with ⟨g, w⟩
  cases g with
  | error m => exact ⟨rfl, rfl⟩
  | ok a => exact ⟨rfl, rfl⟩

lemma processBatch_dry (envs : Nat → ItemEnv) :
    ∀ (batch : List MediaAsset) (idx : Nat),
      (processBatch true envs batch idx).1 = dryResults envs batch idx ∧
      (processBatch true envs batch idx).2.1 = [] := by
  intro batch
  induction batch with
  | nil => intro idx; exact ⟨rfl, rfl⟩
  | cons img rest ih =>
    intro idx
    constructor
    · simp only [processBatch, dryResults]
      rw [(processItem_dry (envs idx) img).1, (ih (idx + 1)).1]
    · simp only [processBatch]
      rw [(processItem_dry (envs idx) img).2, (ih (idx + 1)).2]
      rfl

lemma dryResults_append (envs : Nat → ItemEnv) :
    ∀ (a b : List MediaAsset) (idx : Nat),
      dryResults envs (a ++ b) idx =
        dryResults envs a idx ++ dryResults envs b (idx + a.length) := by
  intro a
  induction a with
  | nil => intro b idx; rfl
  | cons img rest ih =>
    intro b idx
    simp only [List.cons_append, dryResults, List.length_cons, List.append_eq]
    rw [ih b (idx + 1)]
    have harith : idx + 1 + rest.length = idx + (rest.length + 1) := by omega
    rw [harith]

lemma runChunks_dry (envs : Nat → ItemEnv) :
    ∀ (chs : List (List MediaAsset)) (idx bn est : Nat),
      ((runChunks true envs chs idx bn est).1.map BatchEntry.updates).flatten =
        dryResults envs chs.flatten idx ∧
      (runChunks true envs chs idx bn est).2.1 = [] := by
  intro chs
  induction chs with
  | nil => intro idx bn est; exact ⟨rfl, rfl⟩
  | cons b rest ih =>
    intro idx bn est
    constructor
    · simp only [runChunks, List.map_cons, List.flatten_cons, List.flatten]
      rw [(processBatch_dry envs b idx).1]
      rw [(ih (idx + b.length) (bn + 1) _).1]
      rw [← dryResults_append]
    · simp only [runChunks]
      rw [(processBatch_dry envs b idx).2]
      rw [(ih (idx + b.length) (bn + 1) _).2]
      rfl

/-- C9: in dry-run mode no write mutation is ever issued, and the report still
    records per Candidate exactly the generated text (or the caught error). -/
theorem dry_run_no_writes (env : RunEnv) (images : List MediaAsset)
    (hs : env.scopes = Except.ok true) (hi : env.images = Except.ok images) :
    (mainRun true env).writes = [] ∧
    ((mainRun true env).batches.map BatchEntry.updates).flatten =
      dryResults env.items (selectCandidates images) 0 := by
  have hw : (mainRun true env).writes = (mainCore true env).2.1 := rfl
  have hb : (mainRun true env).batches = (mainCore true env).1 := rfl
  rw [hw, hb]
  unfold mainCore
  rw [hs, hi]
  simp only [if_true]
  by_cases hc : (selectCandidates images).isEmpty
  · rw [if_pos hc]
    rw [List.isEmpty_iff] at hc
    rw [hc]
    exact ⟨rfl, rfl⟩
  · rw [if_neg hc]
    simp only []
    constructor
    · exact (runChunks_dry env.items (chunk5 (selectCandidates images)) 0 1 0).2
    · rw [(runChunks_dry env.items (chunk5 (selectCandidates images)) 0 1 0).1]
      rw [chunk5_flatten]

/-- Witness for C9 at a concrete two-candidate environment. -/
theorem dry_run_no_writes_witness :
    (mainRun true
        { scopes := Except.ok true,
          images := Except.ok
            [{ id := "g1", altText := none, filename := "a_b", url := "p.jpg" },
             { id := "g2", altText := some " ", filename := "c", url := "q.png" }],
          items := fun _ => idleItem }).writes = [] ∧
    ((mainRun true
        { scopes := Except.ok true,
          images := Except.ok
            [{ id := "g1", altText := none, filename := "a_b", url := "p.jpg" },
             { id := "g2", altText := some " ", filename := "c", url := "q.png" }],
          items := fun _ => idleItem }).batches.map BatchEntry.updates).flatten =
      dryResults (fun _ => idleItem)
        (selectCandidates
          [{ id := "g1", altText := none, filename := "a_b", url := "p.jpg" },
           { id := "g2", altText := some " ", filename := "c", url := "q.png" }]) 0 :=
  dry_run_no_writes
    { scopes := Except.ok true,
      images := Except.ok
        [{ id := "g1", altText := none, filename := "a_b", url := "p.jpg" },
         { id := "g2", altText := some " ", filename := "c", url := "q.png" }],
      items := fun _ => idleItem }
    [{ id := "g1", altText := none, filename := "a_b", url := "p.jpg" },
     { id := "g2", altText := some " ", filename := "c", url := "q.png" }]
    rfl rfl

/- ===================== Claim C7 ===================== -/

lemma getImagesLoop_succ (oracle : Nat → PageResp) (callIdx : Nat)
    (after : Option String) (acc : List MediaAsset)
    (reqs : List (Nat × Option String)) (fuel : Nat) :
    getImagesLoop oracle callIdx after acc reqs (fuel + 1) =
      (let reqs2 := reqs ++ [(50, after)]
       match oracle callIdx with
       | PageResp.fail m => (Except.error m, reqs2)
       | PageResp.invalid =>
         (Except.error "Invalid response from Shopify GraphQL API", reqs2)
       | PageResp.page p =>
         let acc2 := acc ++ p.edges.map deriveAsset
         if p.hasNextPage then
           getImagesLoop oracle (callIdx + 1) p.endCursor acc2 reqs2 fuel
         else (Except.ok acc2, reqs2)) := rfl

lemma getImagesLoop_spec (oracle : Nat → PageResp) :
    ∀ (ps : List FilesPage) (callIdx : Nat) (after : Option String)
      (acc : List MediaAsset) (reqs : List (Nat × Option String)),
      ps ≠ [] →
      (∀ j p, ps[j]? = some p → oracle (callIdx + j) = PageResp.page p) →
      (∀ j p, ps[j]? = some p → p.hasNextPage = decide (j + 1 < ps.length)) →
      getImagesLoop oracle callIdx after acc reqs ps.length =
        (Except.ok (acc ++ (ps.map (fun p => p.edges.map deriveAsset)).flatten),
         reqs ++ (50, after) :: ps.dropLast.map (fun p => (50, p.endCursor))) := by
  intro ps
  induction ps with
  | nil => intro _ _ _ _ h; exact absurd rfl h
  | cons p rest ih =>
    intro callIdx after acc reqs _ ho hn
    have hp0 : oracle callIdx = PageResp.page p := by
      have := ho 0 p (by simp)
      simpa using this
    cases rest with
    | nil =>
      have hlast : p.hasNextPage = false := by
        have := hn 0 p (by simp)
        simpa using this
      show getImagesLoop oracle callIdx after acc reqs (0 + 1) = _
      rw [getImagesLoop_succ, hp0]
      simp [hlast]
    | cons q rest2 =>
      have hnext : p.hasNextPage = true := by
        have h1 := hn 0 p (by simp)
        rw [h1]
        simp only [decide_eq_true_eq, List.length_cons]
        omega
      have hne : q :: rest2 ≠ [] := List.cons_ne_nil q rest2
      have ho2 : ∀ j p2, (q :: rest2)[j]? = some p2 →
          oracle (callIdx + 1 + j) = PageResp.page p2 := by
        intro j p2 hj
        have := ho (j + 1) p2 (by rw [List.getElem?_cons_succ]; exact hj)
        have harith : callIdx + (j + 1) = callIdx + 1 + j := by omega
        rw [harith] at this
        exact this
      have hn2 : ∀ j p2, (q :: rest2)[j]? = some p2 →
          p2.hasNextPage = decide (j + 1 < (q :: rest2).length) := by
        intro j p2 hj
        have := hn (j + 1) p2 (by rw [List.getElem?_cons_succ]; exact hj)
        rw [this]
        rw [decide_eq_decide]
        simp only [List.length_cons]
        omega
      show getImagesLoop oracle callIdx after acc reqs ((q :: rest2).length + 1) = _
      rw [getImagesLoop_succ, hp0]
      simp only [hnext, if_true]
      rw [ih (callIdx + 1) p.endCursor (acc ++ p.edges.map deriveAsset)
        (reqs ++ [(50, after)]) hne ho2 hn2]
      simp [List.append_assoc]

/-- C7: for a remote listing of N pages, each signalling a next page except the
    last, `getAllImages` issues exactly N paginated requests — page size 50 and
    the cursor threaded from the previous page — and returns the concatenation
    of every page's derived MediaAssets in page order. -/
theorem pagination_exact (pages : List FilesPage) (hne : pages ≠ [])
    (hnext : ∀ i p, pages[i]? = some p →
      p.hasNextPage = decide (i + 1 < pages.length)) :
    getAllImages (pagesOracle pages) pages.length =
      (Except.ok ((pages.map (fun p => p.edges.map deriveAsset)).flatten),
       (50, (none : Option String)) ::
         pages.dropLast.map (fun p => (50, p.endCursor))) := by
  have ho : ∀ j p, pages[j]? = some p → pagesOracle pages (0 + j) = PageResp.page p := by
    intro j p hj
    unfold pagesOracle
    rw [Nat.zero_add, hj]
  have h := getImagesLoop_spec (pagesOracle pages) pages 0 none [] [] hne ho hnext
  unfold getAllImages
  rw [h]
  simp

/-- Witness for C7: a two-page listing. -/
theorem pagination_exact_witness :
    ([{ edges := [{ id := "gid://shopify/MediaImage/1", alt := none,
                    imageUrl := some "https://cdn/x.jpg?v=1" }],
        hasNextPage := true, endCursor := some "cur1" },
      { edges := [{ id := "gid://2", alt := some "alt", imageUrl := none }],
        hasNextPage := false, endCursor := none }] : List FilesPage) ≠ [] ∧
    getAllImages (pagesOracle
        [{ edges := [{ id := "gid://shopify/MediaImage/1", alt := none,
                       imageUrl := some "https://cdn/x.jpg?v=1" }],
           hasNextPage := true, endCursor := some "cur1" },
         { edges := [{ id := "gid://2", alt := some "alt", imageUrl := none }],
           hasNextPage := false, endCursor := none }]) 2 =
      (Except.ok
        [{ id := "gid://shopify/MediaImage/1", altText := none, filename := "x.jpg",
           url := "https://cdn/x.jpg?v=1" },
         { id := "gid://2", altText := some "alt", filename := "2", url := "" }],
       [(50, none), (50, some "cur1")]) := by
  constructor
  · decide
  · have h := pagination_exact
      [{ edges := [{ id := "gid://shopify/MediaImage/1", alt := none,
                     imageUrl := some "https://cdn/x.jpg?v=1" }],
         hasNextPage := true, endCursor := some "cur1" },
       { edges := [{ id := "gid://2", alt := some "alt", imageUrl := none }],
         hasNextPage := false, endCursor := none }]
      (by decide)
      (by
        intro i p hp
        match i with
        | 0 =>
          rw [List.getElem?_cons_zero] at hp
          injection hp with hp2
          subst hp2
          decide
        | 1 =>
          rw [List.getElem?_cons_succ, List.getElem?_cons_zero] at hp
          injection hp with hp2
          subst hp2
          decide
        | (j + 2) =>
          rw [List.getElem?_cons_succ, List.getElem?_cons_succ] at hp
          simp at hp)
    exact h.trans rfl

end AltTag
